import Mathlib

/-!
Verification of the shared-state coordination layer of the AIVPN provisioning
service (`common/database.py`): identity bookkeeping, the active-profile quota
counter, IP-address leasing, the profile-name registry and the two sorted-set
queues.

The Redis store is modelled shallowly: each hash table is an association list
from field name to a typed value, and each sorted set is a list of
member/score pairs.  The store helper functions (`hget`, `hset`, `hsetnx`,
`hincrby`, `hexists`) are called in `common/database.py` but defined elsewhere
in the repository; they are modelled from the spec's description of the store
adapter (atomic hash-field set-if-absent / get / increment-by, sorted-set
add-if-absent-with-score / pop-minimum).
-/

namespace AIVPN

/-- A Redis hash table, modelled as an association list from field to value. -/
abbrev Hash (α : Type) : Type := List (String × α)

/-- Modelled from the spec: the store adapter's hash-field get, a helper not
defined under `src/`.  Returns the value stored at the field, or `none`
when the field is absent (Redis returns nil). -/
def hget {α : Type} : Hash α → String → Option α
  | [], _ => none
  | e :: rest, k => if e.1 = k then some e.2 else hget rest k

/-- Modelled from the spec: the store adapter's hash-field set, a helper not
defined under `src/`.  Overwrites the field or appends it when absent. -/
def hset {α : Type} : Hash α → String → α → Hash α
  | [], k, v => [(k, v)]
  | e :: rest, k, v => if e.1 = k then (k, v) :: rest else e :: hset rest k v

/-- Modelled from the spec: the store adapter's atomic set-if-absent (Redis
HSETNX), a helper not defined under `src/`.  Returns `true` when a new field
was created, `false` (and an unchanged table) when the field already exists. -/
def hsetnx {α : Type} (h : Hash α) (k : String) (v : α) : Bool × Hash α :=
  match hget h k with
  | some _ => (false, h)
  | none => (true, hset h k v)

/-- Modelled from the spec: the store adapter's hash-field existence check, a
helper not defined under `src/`. -/
def hexists {α : Type} (h : Hash α) (k : String) : Bool :=
  (hget h k).isSome

/-- Modelled from the spec: the store adapter's atomic increment-by (Redis
HINCRBY), a helper not defined under `src/`.  An absent field is treated as 0.
Returns the new value together with the updated table. -/
def hincrby (h : Hash Int) (k : String) (n : Int) : Int × Hash Int :=
  match hget h k with
  | none => (n, hset h k n)
  | some v => (v + n, hset h k (v + n))

/-! ## Identity directory (`account_identities` hash) -/

/-- The value `identity_template` from the source:
`json.dumps({'total_profiles':0,'profiles':[],'gpg':''})`, a serialized
string.  This string — not a parsed record — is what `add_identity` stores,
so the identity table holds strings. -/
def identity_template : String :=
  "\x7b\"total_profiles\": 0, \"profiles\": [], \"gpg\": \"\"\x7d"

/-- `add_identity`: stores the serialized template string for the address
only if absent (HSETNX); returns whether a new field was created. -/
def add_identity (msg_addr : String) (s : Hash String) : Bool × Hash String :=
  hsetnx s msg_addr identity_template

/-- `upd_identity_counter`: the source computes
`identity_value = json.dumps(hget(...))` and
`identity_object = json.loads(identity_value)`.  `json.loads` after
`json.dumps` is the identity transformation, so `identity_object` is exactly
the stored value: the serialized string put there by `add_identity`.  The
subscript `identity_object['total_profiles']` on a string then raises a
TypeError (string indices must be integers); when the field is absent the
round trip yields the absent value and the subscript raises a TypeError as
well.  `upd_identity_counter` has no handler, so it raises on every input and
never stores an incremented counter; the uncaught raise is modelled as
`none`. -/
def upd_identity_counter (msg_addr : String) (s : Hash String) : Option (Hash String) :=
  match hget s msg_addr with
  | none => none
  | some _ => none

/-! ## Active-profile quota counter (`active_profiles` hash) -/

/-- `add_active_profile_counter`: HSETNX the field to 0 (create if missing),
then HINCRBY it by 1.  The source returns the literal `True`; the value
returned by HINCRBY is discarded. -/
def add_active_profile_counter (msg_addr : String) (s : Hash Int) : Bool × Hash Int :=
  let s1 := (hsetnx s msg_addr 0).2
  let s2 := (hincrby s1 msg_addr 1).2
  (true, s2)

/-- `subs_active_profile_counter`: HGET the counter; if it is greater than
zero, HINCRBY it by -1 and return `True`; a zero counter is left alone and
`True` is returned.  When the field is absent, HGET yields `None` and the
comparison `None > 0` raises a TypeError which the handler turns into
`False`, leaving the table unchanged. -/
def subs_active_profile_counter (msg_addr : String) (s : Hash Int) : Bool × Hash Int :=
  match hget s msg_addr with
  | none => (false, s)
  | some v => if v > 0 then (true, (hincrby s msg_addr (-1)).2) else (true, s)

/-- `get_active_profile_counter`: HGET of the counter field. -/
def get_active_profile_counter (s : Hash Int) (msg_addr : String) : Option Int :=
  hget s msg_addr

/-! ## OpenVPN IP address pool (`mod_openvpn_blocked_ip_addresses` hash) -/

/-- Modelled from the spec: `add_ip_address` calls the missing `hsetnx` helper
with only the table and the address, marking the address present in the
blocked (leased) set if absent; the lease set only records presence, so it is
modelled as a list of leased addresses. -/
def add_ip_address (leased : List String) (ip_address : String) : Bool × List String :=
  (true, if ip_address ∈ leased then leased else ip_address :: leased)

/-- `exists_ip_address`: HEXISTS of the address in the blocked-address table. -/
def exists_ip_address (leased : List String) (ip_address : String) : Bool :=
  decide (ip_address ∈ leased)

/-- Dotted-quad rendering of a 32-bit address, `str(ip)` in the source. -/
def ipToDotted (n : Nat) : String :=
  toString (n / 16777216 % 256) ++ "." ++ toString (n / 65536 % 256) ++ "."
    ++ toString (n / 256 % 256) ++ "." ++ toString (n % 256)

/-- The full enumeration `[str(ip) for ip in ipaddress.IPv4Network(cidr)]` of a
CIDR range: all `2 ^ (32 - plen)` addresses starting at the network base,
network and broadcast addresses included. -/
def ipv4NetworkAddresses (base plen : Nat) : List String :=
  (List.range (2 ^ (32 - plen))).map (fun i => ipToDotted (base + i))

/-- The retry loop of `openvpn_obtain_client_ip_address`.  `draws` is the
stream of outcomes of `random.choice` over the enumeration; `fuel` is the
remaining retry budget (`maximum_attempts - result`).  Each iteration draws a
candidate; a colliding draw consumes one unit of budget, a free candidate is
marked leased and returned.  When the budget reaches zero the loop exits and
the function returns the failure sentinel. -/
def openvpn_obtain_loop (leased : List String) : (Nat → String) → Nat → Option String × List String
  | _, 0 => (none, leased)
  | draws, fuel + 1 =>
    if exists_ip_address leased (draws 0) then
      openvpn_obtain_loop leased (fun n => draws (n + 1)) fuel
    else
      (some (draws 0), (add_ip_address leased (draws 0)).2)

/-- `openvpn_obtain_client_ip_address`: the retry budget `maximum_attempts` is
the length of the full enumeration of the CIDR range.  The CIDR argument is
modelled as the numeric network base and prefix length. -/
def openvpn_obtain_client_ip_address (base plen : Nat) (draws : Nat → String)
    (leased : List String) : Option String × List String :=
  openvpn_obtain_loop leased draws (ipv4NetworkAddresses base plen).length

/-! ## Profile-name generation and registry (`profile_names` hash) -/

/-- `gen_profile_name`: `wordsData` is `WORDS_DICT['data']` (absent when
`words.json` failed to load, leaving `WORDS_DICT` undefined); `i1`, `i2` pick
the two `random.choice` outcomes; `ts` is `time.strftime("%Y%m%d%H%M%S")`.
When the word list is unavailable or empty the lookup raises and the handler
returns the failure sentinel.  Otherwise the source binds the locals
`string1`, `string2` and `datenow` and then evaluates
`"{}-{}_{}".format(date_now, string1, string2)`; the name `date_now` is never
bound (the local is `datenow`), so Python raises a NameError which the
handler also turns into the failure sentinel. -/
def gen_profile_name (wordsData : Option (List String)) (i1 i2 : Nat) (ts : String) : Option String :=
  match wordsData with
  | none => none
  | some ws =>
    if ws.isEmpty then none
    else
      let string1 := ws.getD (i1 % ws.length) ""
      let string2 := ws.getD (i2 % ws.length) ""
      let datenow := ts
      let _unusedLocals := (string1, string2, datenow)
      none

/-- `add_profile_name`: HSETNX mapping profile name to owning address; returns
whether the mapping was newly created. -/
def add_profile_name (profile_name msg_addr : String) (s : Hash String) : Bool × Hash String :=
  hsetnx s profile_name msg_addr

/-- `get_profile_name`: HGET of the owning address for a profile name. -/
def get_profile_name (profile_name : String) (s : Hash String) : Option String :=
  hget s profile_name

/-! ## Sorted-set queues (`provisioning_queue`, `prov_generate_vpn`) -/

/-- A Redis sorted set, modelled as a list of member/score pairs.  Scores are
the enqueue timestamps `time.time()`, modelled as naturals. -/
abbrev ZSet (μ : Type) : Type := List (μ × Nat)

/-- Modelled from the spec: the store adapter's sorted-set
add-if-absent-with-score (Redis ZADD with the NX flag).  A member already
present is not re-added and its score is not refreshed. -/
def zaddnx {μ : Type} [DecidableEq μ] (q : ZSet μ) (m : μ) (score : Nat) : ZSet μ :=
  if m ∈ q.map Prod.fst then q else q ++ [(m, score)]

/-- Modelled from the spec: the store adapter's sorted-set pop-minimum (Redis
ZPOPMIN with count 1).  Removes and returns an entry of lowest score, or
`none` on an empty set; it never blocks. -/
def zpopmin {μ : Type} : ZSet μ → Option ((μ × Nat) × ZSet μ)
  | [] => none
  | e :: rest =>
    match zpopmin rest with
    | none => some (e, [])
    | some (m, rest2) => if e.2 ≤ m.2 then some (e, rest) else some (m, e :: rest2)

/-- Number of entries of a sorted set carrying a given member. -/
def zcount {μ : Type} [DecidableEq μ] (q : ZSet μ) (m : μ) : Nat :=
  (q.filter (fun e => decide (e.1 = m))).length

/-- A provisioning request triple, the JSON value
`{"msg_id": .., "msg_type": .., "msg_addr": ..}`.  `json.dumps` of the triple
is deterministic, so structural equality of triples models equality of the
serialized members. -/
structure ProvRequest where
  msg_id : Int
  msg_type : String
  msg_addr : String
deriving DecidableEq

/-- Result of a queue pop as seen by the caller: the list returned by ZPOPMIN
(one pair, or empty), or the caught-exception object the source returns when
the body raises. -/
inductive PopResult (μ : Type) where
  | items : List (μ × Nat) → PopResult μ
  | err : PopResult μ
deriving DecidableEq

/-- `add_item_provisioning_queue`: builds the request triple and ZADD-NXes its
serialization into `provisioning_queue` with the current time as score;
returns `True`. -/
def add_item_provisioning_queue (q : ZSet ProvRequest) (msg_id : Int)
    (msg_type msg_addr : String) (score : Nat) : Bool × ZSet ProvRequest :=
  (true, zaddnx q (ProvRequest.mk msg_id msg_type msg_addr) score)

/-- `get_item_provisioning_queue`: ZPOPMIN of `provisioning_queue`; returns
the popped list (`[(member, score)]`, or `[]` on an empty queue). -/
def get_item_provisioning_queue (q : ZSet ProvRequest) : PopResult ProvRequest × ZSet ProvRequest :=
  match zpopmin q with
  | none => (PopResult.items [], q)
  | some (e, rest) => (PopResult.items [e], rest)

/-- `add_prov_generate_vpn`: ZADD-NX of the profile name into
`prov_generate_vpn` with the current time as score; returns `True`. -/
def add_prov_generate_vpn (profile_name : String) (q : ZSet String) (score : Nat) : Bool × ZSet String :=
  (true, zaddnx q profile_name score)

/-- `get_prov_generate_vpn`: ZPOPMIN of `prov_generate_vpn` into the local
`request`, after which the source executes `return profile_name`; the name
`profile_name` is unbound there, so Python raises a NameError, the handler
catches it and the exception object is returned.  The pop itself has already
happened, so the entry is removed from the set in every case. -/
def get_prov_generate_vpn (q : ZSet String) : PopResult String × ZSet String :=
  match zpopmin q with
  | none => (PopResult.err, q)
  | some (_, rest) => (PopResult.err, rest)

/-! ## Helper lemmas -/

theorem hget_hset_self {α : Type} (h : Hash α) (k : String) (v : α) :
    hget (hset h k v) k = some v := by
  induction h with
  | nil => simp [hset, hget]
  | cons e rest ih =>
    by_cases hk : e.1 = k
    · simp [hset, hget, hk]
    · simp [hset, hget, hk, ih]

theorem filter_eq_nil_of_not_mem_map {μ : Type} [DecidableEq μ] (q : ZSet μ) (m : μ)
    (h : m ∉ q.map Prod.fst) : q.filter (fun e => decide (e.1 = m)) = [] := by
  induction q with
  | nil => rfl
  | cons e rest ih =>
    simp only [List.map_cons, List.mem_cons] at h
    push_neg at h
    have hne : e.1 ≠ m := fun hh => h.1 hh.symm
    simp [List.filter, hne, ih h.2]

theorem openvpn_obtain_loop_success (leased : List String) :
    ∀ (fuel : Nat) (draws : Nat → String) (ip : String) (out : List String),
      openvpn_obtain_loop leased draws fuel = (some ip, out) →
      ip ∉ leased ∧ out = ip :: leased := by
  intro fuel
  induction fuel with
  | zero =>
    intro draws ip out h
    simp [openvpn_obtain_loop] at h
  | succ n ih =>
    intro draws ip out h
    rw [openvpn_obtain_loop] at h
    by_cases hmem : draws 0 ∈ leased
    · have hc : exists_ip_address leased (draws 0) = true := by
        simpa [exists_ip_address] using hmem
      rw [if_pos hc] at h
      exact ih _ ip out h
    · have hc : ¬ (exists_ip_address leased (draws 0) = true) := by
        simpa [exists_ip_address] using hmem
      rw [if_neg hc, Prod.mk.injEq] at h
      obtain ⟨h1, h2⟩ := h
      obtain rfl := Option.some.inj h1
      refine ⟨hmem, ?_⟩
      rw [← h2]
      simp [add_ip_address, hmem]

theorem openvpn_obtain_loop_all_collide (leased : List String) :
    ∀ (fuel : Nat) (draws : Nat → String),
      (∀ j, j < fuel → draws j ∈ leased) →
      openvpn_obtain_loop leased draws fuel = (none, leased) := by
  intro fuel
  induction fuel with
  | zero => intro draws _; rfl
  | succ n ih =>
    intro draws h
    rw [openvpn_obtain_loop]
    have h0 : draws 0 ∈ leased := h 0 (Nat.succ_pos n)
    simp only [exists_ip_address, h0, decide_True, if_true]
    exact ih _ (fun j hj => h (j + 1) (Nat.succ_lt_succ hj))

theorem openvpn_obtain_loop_agree (leased : List String) :
    ∀ (fuel : Nat) (d1 d2 : Nat → String),
      (∀ j, j < fuel → d1 j = d2 j) →
      openvpn_obtain_loop leased d1 fuel = openvpn_obtain_loop leased d2 fuel := by
  intro fuel
  induction fuel with
  | zero => intro d1 d2 _; rfl
  | succ n ih =>
    intro d1 d2 h
    have h0 : d1 0 = d2 0 := h 0 (Nat.succ_pos n)
    rw [openvpn_obtain_loop, openvpn_obtain_loop, h0]
    by_cases hmem : d2 0 ∈ leased
    · have hc : exists_ip_address leased (d2 0) = true := by
        simpa [exists_ip_address] using hmem
      rw [if_pos hc, if_pos hc]
      exact ih _ _ (fun j hj => h (j + 1) (Nat.succ_lt_succ hj))
    · have hc : ¬ (exists_ip_address leased (d2 0) = true) := by
        simpa [exists_ip_address] using hmem
      rw [if_neg hc, if_neg hc]

/-! ## Claim theorems -/

/-- Claim C1 (counterexample): with a fresh counter, the first and the second
call of `add_active_profile_counter "alice@example.com"` both return the
boolean `true` — equal values — whereas the claim requires the first call to
return the counter value 1 and the second the distinct value 2.  The function
returns a success flag, never the resulting counter value. -/
theorem quota_increment_return_counterexample :
    (add_active_profile_counter "alice@example.com" []).1 = true ∧
    (add_active_profile_counter "alice@example.com"
      (add_active_profile_counter "alice@example.com" []).2).1 = true ∧
    (add_active_profile_counter "alice@example.com" []).1 =
      (add_active_profile_counter "alice@example.com"
        (add_active_profile_counter "alice@example.com" []).2).1 := by
  refine ⟨rfl, rfl, rfl⟩

/-- Claim C1 (amended): for every address and counter state,
`add_active_profile_counter` ensures a zero-valued counter exists, atomically
increments it by one — the stored value afterwards is one more than before
(0 when absent), so a fresh counter holds 1 after the first call and 2 after
the second — and returns `True` (a success flag, not the counter value). -/
theorem quota_increment_amended : ∀ (a : String) (s : Hash Int),
    (add_active_profile_counter a s).1 = true ∧
    hget (add_active_profile_counter a s).2 a = some ((hget s a).getD 0 + 1) := by
  intro a s
  refine ⟨rfl, ?_⟩
  cases h : hget s a with
  | none => simp [add_active_profile_counter, hsetnx, hincrby, h, hget_hset_self]
  | some v => simp [add_active_profile_counter, hsetnx, hincrby, h, hget_hset_self]

/-- Claim C3: for every address and every counter state holding a non-negative
value `v`, `add_active_profile_counter` followed by
`subs_active_profile_counter` leaves the counter at `v`; and
`subs_active_profile_counter` on a zero-valued counter is a successful no-op,
so the counter never becomes negative. -/
theorem quota_inc_dec_roundtrip :
    (∀ (s : Hash Int) (a : String) (v : Int), hget s a = some v → 0 ≤ v →
      hget (subs_active_profile_counter a (add_active_profile_counter a s).2).2 a = some v) ∧
    (∀ (s : Hash Int) (a : String), hget s a = some 0 →
      subs_active_profile_counter a s = (true, s)) := by
  constructor
  · intro s a v h hv
    have hadd : (add_active_profile_counter a s).2 = hset s a (v + 1) := by
      simp [add_active_profile_counter, hsetnx, hincrby, h]
    rw [hadd]
    have hg : hget (hset s a (v + 1)) a = some (v + 1) := hget_hset_self s a (v + 1)
    have hpos : v + 1 > 0 := by omega
    have hv1 : v + 1 + -1 = v := by ring
    simp [subs_active_profile_counter, hg, hpos, hincrby, hget_hset_self, hv1]
  · intro s a h
    simp [subs_active_profile_counter, h]

/-- Witness for C3 at a concrete counter: a counter at 5 is back at 5 after
increment then decrement, and a counter at 0 is left at 0. -/
theorem quota_inc_dec_roundtrip_witness :
    hget (subs_active_profile_counter "a"
      (add_active_profile_counter "a" [("a", (5 : Int))]).2).2 "a" = some (5 : Int) ∧
    subs_active_profile_counter "a" [("a", (0 : Int))] = (true, [("a", (0 : Int))]) :=
  ⟨quota_inc_dec_roundtrip.1 [("a", (5 : Int))] "a" 5 (by decide) (by decide),
   quota_inc_dec_roundtrip.2 [("a", (0 : Int))] "a" (by decide)⟩

/-- Claim C10: for an address with no quota counter, `subs_active_profile_counter`
returns `False` (the comparison of the absent value with 0 raises, and the
handler reports failure) and leaves the counter table unchanged — no counter
is created. -/
theorem quota_decrement_missing : ∀ (s : Hash Int) (a : String),
    hget s a = none → subs_active_profile_counter a s = (false, s) := by
  intro s a h
  simp [subs_active_profile_counter, h]

/-- Witness for C10 on the empty counter table. -/
theorem quota_decrement_missing_witness :
    subs_active_profile_counter "bob" ([] : Hash Int) = (false, []) :=
  quota_decrement_missing [] "bob" rfl

/-- Claim C9 (code bug evaluation): after `add_identity` creates the record
for an address, the field holds the serialized string `identity_template`,
and `upd_identity_counter` on that address raises an uncaught TypeError
(modelled as `none`) — the stored value is a string, the `json.dumps` then
`json.loads` round trip returns it unchanged, and subscripting it with
`total_profiles` fails — so the counter is never incremented, contrary to the
claim and to the function's own docstring. -/
theorem upd_identity_counter_never_increments :
    hget (add_identity "alice@example.com" []).2 "alice@example.com" = some identity_template ∧
    upd_identity_counter "alice@example.com" (add_identity "alice@example.com" []).2 = none := by
  refine ⟨rfl, rfl⟩

/-- Claim C8: after `add_profile_name n a1` succeeds on a registry where `n`
is absent, a second `add_profile_name n a2` with a different address reports
no-op (returns `false`) and leaves the registry unchanged, so
`get_profile_name n` still returns `a1`. -/
theorem register_profile_conflict : ∀ (reg : Hash String) (n a1 a2 : String),
    hget reg n = none → a1 ≠ a2 →
    (add_profile_name n a1 reg).1 = true ∧
    add_profile_name n a2 (add_profile_name n a1 reg).2
      = (false, (add_profile_name n a1 reg).2) ∧
    get_profile_name n (add_profile_name n a1 reg).2 = some a1 := by
  intro reg n a1 a2 h _
  have h1 : add_profile_name n a1 reg = (true, hset reg n a1) := by
    simp [add_profile_name, hsetnx, h]
  refine ⟨by rw [h1], ?_, ?_⟩
  · rw [h1]
    simp [add_profile_name, hsetnx, hget_hset_self]
  · rw [h1]
    simp [get_profile_name, hget_hset_self]

/-- Witness for C8 on the empty registry. -/
theorem register_profile_conflict_witness :
    (add_profile_name "prof" "a1" ([] : Hash String)).1 = true ∧
    add_profile_name "prof" "a2" (add_profile_name "prof" "a1" ([] : Hash String)).2
      = (false, (add_profile_name "prof" "a1" ([] : Hash String)).2) ∧
    get_profile_name "prof" (add_profile_name "prof" "a1" ([] : Hash String)).2 = some "a1" :=
  register_profile_conflict [] "prof" "a1" "a2" rfl (by decide)

/-- Claim C7: enqueueing the same `(msg_id, msg_type, msg_addr)` triple twice
into the provisioning queue yields exactly one entry for that triple, the
entry keeps the score of the first enqueue, and the second enqueue leaves the
queue completely unchanged (no re-add, no score refresh). -/
theorem provisioning_enqueue_idempotent : ∀ (q : ZSet ProvRequest) (mid : Int)
    (mtype maddr : String) (s1 s2 : Nat),
    ProvRequest.mk mid mtype maddr ∉ q.map Prod.fst →
    zcount (add_item_provisioning_queue q mid mtype maddr s1).2
      (ProvRequest.mk mid mtype maddr) = 1 ∧
    (ProvRequest.mk mid mtype maddr, s1) ∈ (add_item_provisioning_queue q mid mtype maddr s1).2 ∧
    add_item_provisioning_queue (add_item_provisioning_queue q mid mtype maddr s1).2
      mid mtype maddr s2
      = (true, (add_item_provisioning_queue q mid mtype maddr s1).2) := by
  intro q mid mtype maddr s1 s2 h
  have hq1 : (add_item_provisioning_queue q mid mtype maddr s1).2
      = q ++ [(ProvRequest.mk mid mtype maddr, s1)] := by
    simp [add_item_provisioning_queue, zaddnx, h]
  refine ⟨?_, ?_, ?_⟩
  · rw [hq1]
    simp [zcount, List.filter_append, filter_eq_nil_of_not_mem_map q _ h]
  · rw [hq1]
    simp
  · rw [hq1]
    simp [add_item_provisioning_queue, zaddnx]

/-- Witness for C7 on the empty queue, with the triple from the source's
comment. -/
theorem provisioning_enqueue_idempotent_witness :
    zcount (add_item_provisioning_queue [] 45 "email" "mail@mail.com" 10).2
      (ProvRequest.mk 45 "email" "mail@mail.com") = 1 ∧
    (ProvRequest.mk 45 "email" "mail@mail.com", 10)
      ∈ (add_item_provisioning_queue [] 45 "email" "mail@mail.com" 10).2 ∧
    add_item_provisioning_queue (add_item_provisioning_queue [] 45 "email" "mail@mail.com" 10).2
      45 "email" "mail@mail.com" 20
      = (true, (add_item_provisioning_queue [] 45 "email" "mail@mail.com" 10).2) :=
  provisioning_enqueue_idempotent [] 45 "email" "mail@mail.com" 10 20 (by simp)

/-- Claim C5 (code bug evaluation): `get_item_provisioning_queue` removes and
returns the lowest-score entry and yields the empty list on an empty queue,
but `get_prov_generate_vpn` — whose docstring promises the oldest item —
returns the caught NameError for the unbound name `profile_name` in every
case (while still having removed the popped entry). -/
theorem queue_pop_evaluation :
    get_item_provisioning_queue [(ProvRequest.mk 45 "email" "mail@mail.com", 7)]
      = (PopResult.items [(ProvRequest.mk 45 "email" "mail@mail.com", 7)], []) ∧
    get_item_provisioning_queue
        [(ProvRequest.mk 1 "telegram" "user1", 9), (ProvRequest.mk 45 "email" "mail@mail.com", 3)]
      = (PopResult.items [(ProvRequest.mk 45 "email" "mail@mail.com", 3)],
         [(ProvRequest.mk 1 "telegram" "user1", 9)]) ∧
    get_item_provisioning_queue ([] : ZSet ProvRequest) = (PopResult.items [], []) ∧
    get_prov_generate_vpn [("profile1", 7)] = (PopResult.err, []) ∧
    get_prov_generate_vpn ([] : ZSet String) = (PopResult.err, []) := by
  refine ⟨rfl, rfl, rfl, rfl, rfl⟩

/-- Claim C4 (code bug evaluation): `gen_profile_name` returns the failure
sentinel on every input — even with a non-empty word list — because the
format call reads the unbound name `date_now` (the local is `datenow`),
raising a NameError that the handler converts to `False`.  It never produces
the `<word1>-<word2>_<timestamp>` string the claim describes. -/
theorem gen_profile_name_always_fails : ∀ (w : Option (List String)) (i1 i2 : Nat) (ts : String),
    gen_profile_name w i1 i2 ts = none := by
  intro w i1 i2 ts
  cases w with
  | none => rfl
  | some ws => by_cases h : ws.isEmpty <;> simp [gen_profile_name, h]

/-- Claim C6: `openvpn_obtain_client_ip_address` inspects at most as many
draws as the total address count of the range (its result depends only on the
first `length` draws), and when that many draws all collide it returns the
pool-exhaustion sentinel with the lease set unchanged, instead of retrying
further. -/
theorem lease_address_termination_cap :
    (∀ (base plen : Nat) (d1 d2 : Nat → String) (leased : List String),
      (∀ j, j < (ipv4NetworkAddresses base plen).length → d1 j = d2 j) →
      openvpn_obtain_client_ip_address base plen d1 leased
        = openvpn_obtain_client_ip_address base plen d2 leased) ∧
    (∀ (base plen : Nat) (draws : Nat → String) (leased : List String),
      (∀ j, j < (ipv4NetworkAddresses base plen).length → draws j ∈ leased) →
      openvpn_obtain_client_ip_address base plen draws leased = (none, leased)) := by
  constructor
  · intro base plen d1 d2 leased h
    exact openvpn_obtain_loop_agree leased (ipv4NetworkAddresses base plen).length d1 d2 h
  · intro base plen draws leased h
    exact openvpn_obtain_loop_all_collide leased (ipv4NetworkAddresses base plen).length draws h

/-- Witness for C6 on the two-address range 10.8.0.0/31 with every draw
colliding: the call returns the failure sentinel and leaves the lease set
unchanged. -/
theorem lease_address_termination_cap_witness :
    openvpn_obtain_client_ip_address 168296448 31 (fun _ => "10.8.0.0") ["10.8.0.0", "10.8.0.1"]
      = openvpn_obtain_client_ip_address 168296448 31 (fun _ => "10.8.0.0") ["10.8.0.0", "10.8.0.1"] ∧
    openvpn_obtain_client_ip_address 168296448 31 (fun _ => "10.8.0.0") ["10.8.0.0", "10.8.0.1"]
      = (none, ["10.8.0.0", "10.8.0.1"]) :=
  ⟨lease_address_termination_cap.1 168296448 31 (fun _ => "10.8.0.0") (fun _ => "10.8.0.0")
      ["10.8.0.0", "10.8.0.1"] (fun _ _ => rfl),
   lease_address_termination_cap.2 168296448 31 (fun _ => "10.8.0.0") ["10.8.0.0", "10.8.0.1"]
      (by decide)⟩

/-- Claim C2 (counterexample): for the range 10.8.0.0/30 with k = 2 usable
hosts, there is an execution in which the first two calls succeed and the
third (k+1) call still succeeds and leases 10.8.0.3, instead of reporting
pool exhaustion: the enumeration includes the network and broadcast
addresses, so the pool holds k + 2 = 4 addresses. -/
theorem lease_address_counterexample :
    (openvpn_obtain_client_ip_address 168296448 30 (fun _ => "10.8.0.1") []).1 = some "10.8.0.1" ∧
    (openvpn_obtain_client_ip_address 168296448 30 (fun _ => "10.8.0.2") ["10.8.0.1"]).1
      = some "10.8.0.2" ∧
    (openvpn_obtain_client_ip_address 168296448 30 (fun _ => "10.8.0.3")
      ["10.8.0.2", "10.8.0.1"]).1 = some "10.8.0.3" ∧
    some "10.8.0.3" ≠ (none : Option String) := by
  refine ⟨rfl, rfl, rfl, by decide⟩

/-- Claim C2 (amended): successful `openvpn_obtain_client_ip_address` calls
return pairwise-distinct addresses (a returned address was not previously
leased and is recorded as leased), and once every address of the full
enumeration of the range — network and broadcast included, so k + 2 addresses
for k usable hosts — is leased, every call reports pool exhaustion; a call
whose capped draws all collide reports exhaustion even earlier. -/
theorem lease_address_distinct_and_exhaustion :
    (∀ (base plen : Nat) (d1 d2 : Nat → String) (leased l1 l2 : List String) (ip1 ip2 : String),
      openvpn_obtain_client_ip_address base plen d1 leased = (some ip1, l1) →
      openvpn_obtain_client_ip_address base plen d2 l1 = (some ip2, l2) →
      ip1 ≠ ip2) ∧
    (∀ (base plen : Nat) (draws : Nat → String) (leased : List String),
      (∀ j, draws j ∈ ipv4NetworkAddresses base plen) →
      (∀ x, x ∈ ipv4NetworkAddresses base plen → x ∈ leased) →
      openvpn_obtain_client_ip_address base plen draws leased = (none, leased)) := by
  constructor
  · intro base plen d1 d2 leased l1 l2 ip1 ip2 h1 h2
    obtain ⟨_, hl1⟩ := openvpn_obtain_loop_success leased _ d1 ip1 l1 h1
    obtain ⟨hip2, _⟩ := openvpn_obtain_loop_success l1 _ d2 ip2 l2 h2
    subst hl1
    intro heq
    exact hip2 (heq ▸ List.mem_cons_self ip1 leased)
  · intro base plen draws leased hdraws hsub
    exact openvpn_obtain_loop_all_collide leased _ draws (fun j _ => hsub _ (hdraws j))

/-- Witness for C2 (amended) on 10.8.0.0/31: two concrete successful calls
return distinct addresses, and with both addresses leased the next call
reports exhaustion. -/
theorem lease_address_distinct_and_exhaustion_witness :
    ("10.8.0.0" : String) ≠ "10.8.0.1" ∧
    openvpn_obtain_client_ip_address 168296448 31 (fun _ => "10.8.0.1") ["10.8.0.0", "10.8.0.1"]
      = (none, ["10.8.0.0", "10.8.0.1"]) :=
  ⟨lease_address_distinct_and_exhaustion.1 168296448 31 (fun _ => "10.8.0.0")
      (fun _ => "10.8.0.1") [] ["10.8.0.0"] ["10.8.0.1", "10.8.0.0"] "10.8.0.0" "10.8.0.1"
      rfl rfl,
   lease_address_distinct_and_exhaustion.2 168296448 31 (fun _ => "10.8.0.1")
      ["10.8.0.0", "10.8.0.1"]
      (fun _ => (by decide : ("10.8.0.1" : String) ∈ ipv4NetworkAddresses 168296448 31))
      (by decide)⟩

end AIVPN
